import Mathlib

/-!
Verification of the bounded, rate-limited multi-agent control loop.

The definitions below are a shallow embedding of the Python sources:
`src/utils/rate_limiter.py` (token buckets and the rate limiter),
`src/agents/supervisor.py` (supervisor routing and fallback decision),
`src/agents/reviewer.py` (review decision function),
`src/agents/content_creator.py` (drafting stage),
`src/agents/base_agent.py` (LLM invocation with retry), and
`src/workflows/graph_builder.py` (graph nodes and routing).

Modelling conventions: wall-clock times and Python floats are embedded as
rationals; callers pass explicit time stamps for each lock acquisition or
polling attempt, so sleeping loops become recursion over a finite schedule
of attempt times. Fallible or external operations (the LLM, content
generation) are parameters of the embedding. Logging, telemetry
(`request_history`, `get_stats`, `decision_history`) and message
timestamps are omitted: they do not feed back into control flow.
-/

namespace Pipeline

/-! ## Token bucket (`src/utils/rate_limiter.py`, class `TokenBucket`) -/

/-- State of `TokenBucket`: `capacity`, `refill_rate` (tokens per second),
current `tokens`, and the time of the last refill. -/
structure TokenBucket where
  capacity : ℚ
  refill_rate : ℚ
  tokens : ℚ
  last_refill : ℚ
  deriving DecidableEq, Repr

/-- `TokenBucket.__init__`: starts full, with `last_refill` set to the
construction time. -/
def TokenBucket.mkBucket (capacity : ℕ) (refill_rate : ℚ) (now : ℚ) : TokenBucket :=
  { capacity := capacity, refill_rate := refill_rate, tokens := capacity, last_refill := now }

/-- `TokenBucket._refill`: lazily adds `elapsed * refill_rate` tokens,
clamped at `capacity`, and stamps `last_refill` with the current time. -/
def TokenBucket.refill (b : TokenBucket) (now : ℚ) : TokenBucket :=
  let elapsed := now - b.last_refill
  let new_tokens := elapsed * b.refill_rate
  { b with tokens := min b.capacity (b.tokens + new_tokens), last_refill := now }

/-- `TokenBucket.consume`: refill, then either deduct the requested amount
and succeed, or leave the bucket as refilled and fail. -/
def TokenBucket.consume (b : TokenBucket) (n : ℕ) (now : ℚ) : Bool × TokenBucket :=
  let b1 := b.refill now
  if (n : ℚ) ≤ b1.tokens then (true, { b1 with tokens := b1.tokens - n })
  else (false, b1)

/-- Python truthiness of the `timeout` argument (`Optional[float]`): the
guard `if timeout and ...` runs only when `timeout` is neither `None` nor
zero. -/
def timeoutTruthy : Option ℚ → Bool
  | none => false
  | some q => decide (q ≠ 0)

/-- Outcome of a waiting loop: tokens acquired, timed out, or still
waiting when the modelled schedule of attempts is exhausted. -/
inductive WaitOutcome where
  | acquired
  | timedOut
  | pending
  deriving DecidableEq, Repr

/-- The body of `TokenBucket.wait_for_tokens`: one `consume` attempt per
scheduled time; after a failed attempt the timeout guard
`if timeout and (now - start) > timeout` may end the loop, otherwise the
bucket is refilled again (the deficit computation) and the loop sleeps
until the next scheduled attempt. -/
def waitLoop (n : ℕ) (timeout : Option ℚ) (start : ℚ) :
    TokenBucket → List ℚ → WaitOutcome × TokenBucket
  | b, [] => (WaitOutcome.pending, b)
  | b, t :: ts =>
    if (b.consume n t).1 then (WaitOutcome.acquired, (b.consume n t).2)
    else if timeoutTruthy timeout && decide (t - start > timeout.getD 0) then
      (WaitOutcome.timedOut, (b.consume n t).2)
    else
      waitLoop n timeout start (((b.consume n t).2).refill t) ts

/-- `TokenBucket.wait_for_tokens`: the first `consume` attempt happens
immediately at `start`; `later` is the schedule of subsequent attempts
(one per sleep of the Python loop). -/
def TokenBucket.wait_for_tokens (b : TokenBucket) (n : ℕ) (timeout : Option ℚ)
    (start : ℚ) (later : List ℚ) : WaitOutcome × TokenBucket :=
  waitLoop n timeout start b (start :: later)

/-- Validity of a bucket: token count within `[0, capacity]` and a
non-negative refill rate (configured rates are `limit / 60` with a
positive limit). -/
def TokenBucket.Valid (b : TokenBucket) : Prop :=
  0 ≤ b.tokens ∧ b.tokens ≤ b.capacity ∧ 0 ≤ b.refill_rate

instance (b : TokenBucket) : Decidable b.Valid := by
  unfold TokenBucket.Valid; infer_instance

/-! ## Operation sequences over a bucket (for the bucket invariant) -/

/-- One bucket operation, stamped with the wall-clock times at which it
touches the bucket. -/
inductive BOp where
  | consumeOp (n : ℕ) (t : ℚ)
  | refillOp (t : ℚ)
  | waitOp (n : ℕ) (timeout : Option ℚ) (start : ℚ) (later : List ℚ)
  deriving Repr

def applyBOp (b : TokenBucket) : BOp → TokenBucket
  | BOp.consumeOp n t => (b.consume n t).2
  | BOp.refillOp t => b.refill t
  | BOp.waitOp n timeout start later => (b.wait_for_tokens n timeout start later).2

def applyBOps : TokenBucket → List BOp → TokenBucket
  | b, [] => b
  | b, op :: ops => applyBOps (applyBOp b op) ops

/-- A nondecreasing chain of attempt times, starting no earlier than the
given base time. -/
def chainOk : ℚ → List ℚ → Prop
  | _, [] => True
  | t0, t :: ts => t0 ≤ t ∧ chainOk t ts

/-- The last time of a chain (or the base time when the chain is empty). -/
def chainEnd : ℚ → List ℚ → ℚ
  | t0, [] => t0
  | _, t :: ts => chainEnd t ts

/-- Well-timed single operation relative to a base time (the wall clock
never runs backwards between bucket accesses). -/
def bopOk (t0 : ℚ) : BOp → Prop
  | BOp.consumeOp _ t => t0 ≤ t
  | BOp.refillOp t => t0 ≤ t
  | BOp.waitOp _ _ start later => t0 ≤ start ∧ chainOk start later

/-- Upper bound for the clock after an operation. -/
def bopEnd (t0 : ℚ) : BOp → ℚ
  | BOp.consumeOp _ t => t
  | BOp.refillOp t => t
  | BOp.waitOp _ _ start later => chainEnd start later

/-- Well-timed operation sequence. -/
def bopsOk : ℚ → List BOp → Prop
  | _, [] => True
  | t0, op :: ops => bopOk t0 op ∧ bopsOk (bopEnd t0 op) ops

/-! ## Rate limiter (`src/utils/rate_limiter.py`, class `RateLimiter`) -/

/-- `RateLimitConfig` (the `min_request_interval` property is unused by the
limiter itself). -/
structure RateLimitConfig where
  requests_per_minute : ℕ
  tokens_per_minute : ℕ
  max_concurrent : ℕ
  deriving DecidableEq, Repr

/-- State of `RateLimiter`: the two buckets, the concurrency counter and
its bound. The `request_history` deque is telemetry only and is omitted. -/
structure RateLimiter where
  request_bucket : TokenBucket
  token_bucket : TokenBucket
  active_requests : ℤ
  max_concurrent : ℕ
  deriving DecidableEq, Repr

/-- `RateLimiter.__init__`: both buckets start at full capacity with
refill rate `capacity / 60` per second; no request is active. -/
def RateLimiter.mkLimiter (config : RateLimitConfig) (now : ℚ) : RateLimiter :=
  { request_bucket :=
      TokenBucket.mkBucket config.requests_per_minute ((config.requests_per_minute : ℚ) / 60) now,
    token_bucket :=
      TokenBucket.mkBucket config.tokens_per_minute ((config.tokens_per_minute : ℚ) / 60) now,
    active_requests := 0,
    max_concurrent := config.max_concurrent }

/-- The concurrency-slot phase of `RateLimiter.acquire`: the slot check
runs first on every pass; after a failed check the guard
`if timeout and (now - start) > timeout` may give up, otherwise the loop
sleeps until the next scheduled pass. In a single-threaded run
`active_requests` does not change between passes. -/
def slotWait (active : ℤ) (max_concurrent : ℕ) (timeout : Option ℚ) (start : ℚ) :
    List ℚ → WaitOutcome
  | [] =>
    if active < (max_concurrent : ℤ) then WaitOutcome.acquired else WaitOutcome.pending
  | t :: ts =>
    if active < (max_concurrent : ℤ) then WaitOutcome.acquired
    else if timeoutTruthy timeout && decide (t - start > timeout.getD 0) then
      WaitOutcome.timedOut
    else slotWait active max_concurrent timeout start ts

/-- `RateLimiter.acquire`: claim a concurrency slot (incrementing
`active_requests`), then wait on the request bucket for 1 token and on the
token bucket for `estimated_tokens`; if either wait fails, decrement
`active_requests` and report failure. A `pending` wait means the Python
loop is still blocked, so no boolean is returned yet (`none`). Consumed
bucket tokens are never returned. -/
def RateLimiter.acquire (rl : RateLimiter) (estimated_tokens : ℕ) (timeout : Option ℚ)
    (start : ℚ) (slotTimes reqTimes tokTimes : List ℚ) : Option Bool × RateLimiter :=
  match slotWait rl.active_requests rl.max_concurrent timeout start slotTimes with
  | WaitOutcome.pending => (none, rl)
  | WaitOutcome.timedOut => (some false, rl)
  | WaitOutcome.acquired =>
    let rl1 : RateLimiter := { rl with active_requests := rl.active_requests + 1 }
    let w1 := rl1.request_bucket.wait_for_tokens 1 timeout start reqTimes
    if w1.1 = WaitOutcome.pending then (none, { rl1 with request_bucket := w1.2 })
    else
      let w2 := rl1.token_bucket.wait_for_tokens estimated_tokens timeout start tokTimes
      if w2.1 = WaitOutcome.pending then
        (none, { rl1 with request_bucket := w1.2, token_bucket := w2.2 })
      else if w1.1 = WaitOutcome.acquired ∧ w2.1 = WaitOutcome.acquired then
        (some true, { rl1 with request_bucket := w1.2, token_bucket := w2.2 })
      else
        (some false, { rl1 with request_bucket := w1.2, token_bucket := w2.2,
                                active_requests := rl1.active_requests - 1 })

/-- `RateLimiter.release`: decrement the concurrency counter, clamped at
zero; consumed rate/cost tokens are not refunded. -/
def RateLimiter.release (rl : RateLimiter) : RateLimiter :=
  { rl with active_requests := max 0 (rl.active_requests - 1) }

/-! ## Sequences of `acquire` / `release` calls (concurrency invariant) -/

/-- Values written to `active_requests` while an `acquire` call runs,
before its final state: the increment performed when the slot is
claimed. -/
def RateLimiter.acquireTrace (rl : RateLimiter) (timeout : Option ℚ) (start : ℚ)
    (slotTimes : List ℚ) : List ℤ :=
  match slotWait rl.active_requests rl.max_concurrent timeout start slotTimes with
  | WaitOutcome.acquired => [rl.active_requests + 1]
  | _ => []

inductive RLOp where
  | acquireOp (estimated_tokens : ℕ) (timeout : Option ℚ) (start : ℚ)
      (slotTimes reqTimes tokTimes : List ℚ)
  | releaseOp
  deriving Repr

def applyRLOp (rl : RateLimiter) : RLOp → RateLimiter
  | RLOp.acquireOp est timeout start sT rT tT => (rl.acquire est timeout start sT rT tT).2
  | RLOp.releaseOp => rl.release

def rlOpTrace (rl : RateLimiter) : RLOp → List ℤ
  | RLOp.acquireOp _ timeout start sT _ _ => rl.acquireTrace timeout start sT
  | RLOp.releaseOp => []

/-- Run a sequence of calls, collecting every value taken by
`active_requests` (transient values during each call, then the value after
the call). -/
def runRLOps : RateLimiter → List RLOp → RateLimiter × List ℤ
  | rl, [] => (rl, [])
  | rl, op :: ops =>
    ((runRLOps (applyRLOp rl op) ops).1,
      rlOpTrace rl op ++ (applyRLOp rl op).active_requests ::
        (runRLOps (applyRLOp rl op) ops).2)

def withinBounds (m : ℕ) (vs : List ℤ) : Bool :=
  vs.all fun v => decide (0 ≤ v) && decide (v ≤ (m : ℤ))

/-- A limiter state used for C3 and its witness: configured with
60 requests/minute and 60 cost-units/minute, after one successful
`acquire(60)` (draining the cost bucket) and its `release`; the
reachability of this state is `rlC3_reachable` below. -/
def rlC3 : RateLimiter :=
  { request_bucket := ⟨60, 1, 59, 0⟩, token_bucket := ⟨60, 1, 0, 0⟩,
    active_requests := 0, max_concurrent := 5 }

/-- Scenario C configuration: `requests_per_minute=60` (token budget at
its default 150000, `max_concurrent=5`). -/
def cfg60 : RateLimitConfig := ⟨60, 150000, 5⟩

/-- `n` back-to-back `acquire(estimated_tokens=1000, timeout=0)` calls at
time 0, each followed by `release`; returns whether all calls succeeded. -/
def drainCalls : ℕ → RateLimiter → Bool × RateLimiter
  | 0, rl => (true, rl)
  | Nat.succ k, rl =>
    let r := rl.acquire 1000 (some 0) 0 [] [] []
    let rest := drainCalls k r.2.release
    (decide (r.1 = some true) && rest.1, rest.2)

def after60 : Bool × RateLimiter := drainCalls 60 (RateLimiter.mkLimiter cfg60 0)

/-! ## Workflow state (`src/state/schemas.py`) -/

/-- `AgentMessage` (the `datetime.now()` timestamp is omitted: it never
feeds back into control flow). -/
structure AgentMessage where
  sender : String
  recipient : String
  content : String
  message_type : String
  deriving DecidableEq, Repr

/-- The metadata mapping written at workflow completion (keys of the
Python dict; `status` is present only in the supervisor's forced-finish
variant). -/
structure Metadata where
  word_count : ℕ
  quality_score : ℚ
  sources_used : ℕ
  revisions : ℕ
  status : Option String
  deriving DecidableEq, Repr

/-- `AgentState` (`user_context` is omitted: it is never read by the
control loop). Scores are rationals, statuses and decisions are the
literal strings used by the Python code. -/
structure AgentState where
  task : String
  current_agent : String
  next_agent : String
  iteration_count : ℕ
  workflow_status : String
  messages : List AgentMessage
  research_query : String
  research_findings : String
  research_sources : List String
  research_quality_score : ℚ
  content_type : String
  content_draft : String
  content_version : ℕ
  review_score : ℚ
  review_feedback : String
  review_decision : String
  revision_count : ℕ
  final_output : String
  metadata : Option Metadata
  errors : List String
  warnings : List String
  deriving DecidableEq, Repr

/-- `SupervisorDecision`. -/
structure SupervisorDecision where
  next_agent : String
  reasoning : String
  instructions : String
  confidence : ℚ
  deriving DecidableEq, Repr

/-- `ContentOutput` (content creator structured output). -/
structure ContentOutput where
  content : String
  word_count : ℕ
  sections : List String
  sources_cited : ℕ
  deriving DecidableEq, Repr

/-- A partial state update as returned by a LangGraph node: `none` means
the key is absent from the returned dict; `messages` / `errors` /
`warnings` are annotated with the `add` reducer and therefore appended. -/
structure StateUpdate where
  current_agent : Option String := none
  next_agent : Option String := none
  iteration_count : Option ℕ := none
  workflow_status : Option String := none
  research_query : Option String := none
  research_findings : Option String := none
  research_sources : Option (List String) := none
  research_quality_score : Option ℚ := none
  content_type : Option String := none
  content_draft : Option String := none
  content_version : Option ℕ := none
  review_score : Option ℚ := none
  review_feedback : Option String := none
  review_decision : Option String := none
  revision_count : Option ℕ := none
  final_output : Option String := none
  metadata : Option Metadata := none
  messages : List AgentMessage := []
  errors : List String := []
  warnings : List String := []
  deriving Repr

/-- LangGraph state merge: fields annotated with `add` are concatenated,
all other fields are overwritten when present in the update. -/
def applyUpdate (s : AgentState) (u : StateUpdate) : AgentState :=
  { task := s.task
    current_agent := u.current_agent.getD s.current_agent
    next_agent := u.next_agent.getD s.next_agent
    iteration_count := u.iteration_count.getD s.iteration_count
    workflow_status := u.workflow_status.getD s.workflow_status
    messages := s.messages ++ u.messages
    research_query := u.research_query.getD s.research_query
    research_findings := u.research_findings.getD s.research_findings
    research_sources := u.research_sources.getD s.research_sources
    research_quality_score := u.research_quality_score.getD s.research_quality_score
    content_type := u.content_type.getD s.content_type
    content_draft := u.content_draft.getD s.content_draft
    content_version := u.content_version.getD s.content_version
    review_score := u.review_score.getD s.review_score
    review_feedback := u.review_feedback.getD s.review_feedback
    review_decision := u.review_decision.getD s.review_decision
    revision_count := u.revision_count.getD s.revision_count
    final_output := u.final_output.getD s.final_output
    metadata := match u.metadata with
      | some m => some m
      | none => s.metadata
    errors := s.errors ++ u.errors
    warnings := s.warnings ++ u.warnings }

/-- `create_initial_state`. -/
def create_initial_state (task : String) : AgentState :=
  { task := task
    current_agent := "supervisor"
    next_agent := "supervisor"
    iteration_count := 0
    workflow_status := "running"
    messages := []
    research_query := ""
    research_findings := ""
    research_sources := []
    research_quality_score := 0
    content_type := "blog post"
    content_draft := ""
    content_version := 0
    review_score := 0
    review_feedback := ""
    review_decision := "request_revision"
    revision_count := 0
    final_output := ""
    metadata := none
    errors := []
    warnings := [] }

/-- `len(content.split())`: count maximal runs of non-space characters. -/
def wordsAux : List Char → Bool → ℕ
  | [], inWord => if inWord then 1 else 0
  | c :: cs, inWord =>
    if c = ' ' then (if inWord then 1 else 0) + wordsAux cs false
    else wordsAux cs true

def wordCount (s : String) : ℕ := wordsAux s.data false

/-- The revision cap: hardcoded as the literal `3` in
`SupervisorAgent.execute` and `SupervisorAgent._fallback_decision`
(`settings` has no `max_revisions` field). -/
def maxRevisions : ℕ := 3

/-- The termination check at the top of `SupervisorAgent.execute`:
`iteration_count >= max_iterations`, or `revision_count >= 3`, or
(`review_decision == 'approve'` and `final_output` is truthy). -/
def should_finish (maxIter : ℕ) (s : AgentState) : Bool :=
  decide (maxIter ≤ s.iteration_count) || decide (maxRevisions ≤ s.revision_count) ||
    (decide (s.review_decision = "approve") && decide (s.final_output ≠ ""))

/-- `SupervisorAgent.execute`: forced finish (deriving `final_output` from
a non-empty draft when no final output exists yet), otherwise route using
the decision produced by the router (the LLM path or its deterministic
fallback), appending one task message to the recipient. -/
def supervisor_execute (maxIter : ℕ) (router : AgentState → SupervisorDecision)
    (s : AgentState) : StateUpdate :=
  if should_finish maxIter s then
    if s.content_draft ≠ "" ∧ s.final_output = "" then
      { current_agent := some "supervisor", next_agent := some "finish",
        workflow_status := some "completed",
        final_output := some s.content_draft,
        metadata := some
          { word_count := wordCount s.content_draft,
            quality_score := s.review_score,
            sources_used := s.research_sources.length,
            revisions := s.revision_count,
            status := some "completed_with_max_iterations" } }
    else
      { current_agent := some "supervisor", next_agent := some "finish",
        workflow_status := some "completed" }
  else
    { current_agent := some "supervisor", next_agent := some (router s).next_agent,
      messages := [{ sender := "supervisor", recipient := (router s).next_agent,
                     content := (router s).instructions, message_type := "task" }] }

/-- `WorkflowBuilder._supervisor_node`: the graph-level iteration guard
(no iteration increment, status forced to `completed`, a warning
appended), else `SupervisorAgent.execute` plus `increment_iteration`. -/
def supervisor_node (maxIter : ℕ) (router : AgentState → SupervisorDecision)
    (s : AgentState) : StateUpdate :=
  if maxIter ≤ s.iteration_count then
    { next_agent := some "finish", workflow_status := some "completed",
      warnings := ["Max iterations reached"] }
  else
    { supervisor_execute maxIter router s with
        iteration_count := some (s.iteration_count + 1) }

/-- `WorkflowBuilder._route_from_supervisor`: `route_map.get(next_agent,
'finish')`, with `human_review` mapped to `finish`. -/
def route_from_supervisor (s : AgentState) : String :=
  if s.next_agent = "researcher" then "researcher"
  else if s.next_agent = "content_creator" then "content_creator"
  else if s.next_agent = "reviewer" then "reviewer"
  else "finish"

/-- `ContentCreatorAgent.execute` (success path): the generated content is
produced by the injected `gen` (the LLM call), the draft and version are
overwritten and one result message is appended. -/
def content_creator_execute (gen : AgentState → ContentOutput) (s : AgentState) :
    StateUpdate :=
  { current_agent := some "content_creator",
    content_draft := some (gen s).content,
    content_version := some (s.content_version + 1),
    content_type := some s.content_type,
    messages := [{ sender := "content_creator", recipient := "supervisor",
                   content := "Content created (" ++ toString (gen s).word_count ++
                     " words, " ++ toString (gen s).sources_cited ++ " sources cited)",
                   message_type := "result" }] }

/-- The LangGraph control loop: supervisor node, conditional routing, one
worker node, and back to the supervisor; `fuel` bounds the number of
supervisor passes (`none` = fuel exhausted before reaching `finish`). -/
def runLoop (maxIter : ℕ) (router : AgentState → SupervisorDecision)
    (workers : String → AgentState → StateUpdate) : ℕ → AgentState → Option AgentState
  | 0, _ => none
  | Nat.succ fuel, s =>
    if route_from_supervisor (applyUpdate s (supervisor_node maxIter router s)) = "finish" then
      some (applyUpdate s (supervisor_node maxIter router s))
    else
      runLoop maxIter router workers fuel
        (applyUpdate (applyUpdate s (supervisor_node maxIter router s))
          (workers (route_from_supervisor (applyUpdate s (supervisor_node maxIter router s)))
            (applyUpdate s (supervisor_node maxIter router s))))

def routerR : AgentState → SupervisorDecision :=
  fun _ => { next_agent := "researcher", reasoning := "always research",
             instructions := "Research the topic", confidence := 1 }

def workersNone : String → AgentState → StateUpdate := fun _ _ => {}

/-! ## C2: terminal status and Scenario A -/

def routerA : AgentState → SupervisorDecision :=
  fun _ => { next_agent := "content_creator", reasoning := "drafting next",
             instructions := "Create a draft", confidence := 1 }

def genA : AgentState → ContentOutput :=
  fun _ => { content := "Scenario draft", word_count := 2, sections := [],
             sources_cited := 0 }

def workersA : String → AgentState → StateUpdate :=
  fun r s => if r = "content_creator" then content_creator_execute genA s else {}

/-- Scenario A: `max_iterations = 5`, router always returns the drafter
(`content_creator`) with confidence 1.0, run from the initial state with
enough fuel for the forced finish. -/
def scenarioAFinal : Option AgentState :=
  runLoop 5 routerA workersA 6 (create_initial_state "Scenario A task")

/-! ## C6: the deterministic fallback decision
(`SupervisorAgent._fallback_decision`) -/

/-- Python slicing `s[:200]`. -/
def strTake (s : String) (n : ℕ) : String := String.mk (s.data.take n)

/-- `SupervisorAgent._fallback_decision`: iteration cap, then revision
cap, then the populated-fields rule chain (Python truthiness of the
output strings is emptiness). -/
def fallback_decision (maxIter : ℕ) (s : AgentState) : SupervisorDecision :=
  if maxIter ≤ s.iteration_count then
    { next_agent := "finish", reasoning := "Maximum iterations reached",
      instructions := "Complete workflow", confidence := 1 }
  else if maxRevisions ≤ s.revision_count then
    { next_agent := "finish",
      reasoning := "Maximum revisions reached, accepting current content",
      instructions := "Finalize output with current content", confidence := 0.8 }
  else if s.research_findings = "" then
    { next_agent := "researcher", reasoning := "No research completed yet",
      instructions := "Research the topic: " ++ s.task, confidence := 0.9 }
  else if s.content_draft = "" then
    { next_agent := "content_creator", reasoning := "Research complete, need content",
      instructions := "Create content based on research findings", confidence := 0.9 }
  else if s.review_feedback = "" then
    { next_agent := "reviewer", reasoning := "Content created, needs review",
      instructions := "Review content quality and accuracy", confidence := 0.9 }
  else if s.review_decision = "request_revision" ∧ s.revision_count < maxRevisions then
    { next_agent := "content_creator", reasoning := "Revision requested by reviewer",
      instructions := "Revise content based on feedback: " ++ strTake s.review_feedback 200,
      confidence := 0.8 }
  else
    { next_agent := "finish", reasoning := "Workflow complete or max revisions reached",
      instructions := "Finalize output", confidence := 0.7 }

/-- The rule table exactly as the claim states it, keyed only on which
output fields are populated (the spec stage `drafter` is the code stage
`content_creator`; the spec decision `revise` is the code decision
`request_revision`). -/
def fallbackTableClaimed (s : AgentState) : String :=
  if s.research_findings = "" then "researcher"
  else if s.content_draft = "" then "content_creator"
  else if s.review_feedback = "" then "reviewer"
  else if s.review_decision = "request_revision" ∧ s.revision_count < maxRevisions then
    "content_creator"
  else "finish"

/-- The claimed table amended with the two cap guards the code checks
first. -/
def fallbackTableGuarded (maxIter : ℕ) (s : AgentState) : String :=
  if maxIter ≤ s.iteration_count then "finish"
  else if maxRevisions ≤ s.revision_count then "finish"
  else fallbackTableClaimed s

/-! ## C5: the reviewer decision function
(`ReviewerAgent._make_decision`) -/

/-- ASCII lowering of one character code (`str.lower` restricted to the
ASCII range, which covers every critical keyword). -/
def lowerCode (n : ℕ) : ℕ := if 65 ≤ n ∧ n ≤ 90 then n + 32 else n

def strLowerCodes (s : String) : List ℕ := s.data.map fun c => lowerCode c.toNat

def strCodes (s : String) : List ℕ := s.data.map Char.toNat

def codesBeginWith : List ℕ → List ℕ → Bool
  | [], _ => true
  | _ :: _, [] => false
  | p :: ps, c :: cs => decide (p = c) && codesBeginWith ps cs

/-- Substring occurrence: Python `pat in text`. -/
def codesContain (pat : List ℕ) : List ℕ → Bool
  | [] => codesBeginWith pat []
  | c :: cs => codesBeginWith pat (c :: cs) || codesContain pat cs

def critical_keywords : List String :=
  ["plagiarism", "fabricated", "completely false", "dangerous misinformation"]

/-- `any(kw in issue.lower() for kw in critical_keywords)` over the
issue list. -/
def has_critical (issues : List String) : Bool :=
  issues.any fun issue =>
    critical_keywords.any fun kw => codesContain (strCodes kw) (strLowerCodes issue)

/-- `ReviewerAgent._make_decision` (its `llm_decision` argument is unused
by the Python body and is dropped): critical keywords reject first, then
the two approve rules, then the low-score reject, otherwise
`request_revision` (the decision the spec calls `revise`). -/
def make_decision (score : ℚ) (issues : List String) : String :=
  if has_critical issues then "reject"
  else if 0.85 ≤ score ∧ issues.length ≤ 3 then "approve"
  else if 0.75 ≤ score ∧ issues.length ≤ 2 then "approve"
  else if score < 0.4 then "reject"
  else "request_revision"

/-- The rule list in the order the claim states it: the approve rules
before the critical-keyword rejection. -/
def make_decision_claimed (score : ℚ) (issues : List String) : String :=
  if 0.85 ≤ score ∧ issues.length ≤ 3 then "approve"
  else if 0.75 ≤ score ∧ issues.length ≤ 2 then "approve"
  else if score < 0.4 then "reject"
  else if has_critical issues then "reject"
  else "request_revision"

/-- The decision table as amended: identical thresholds, but the
critical-keyword rejection takes precedence over every other rule. -/
def make_decision_amended (score : ℚ) (issues : List String) : String :=
  if has_critical issues then "reject"
  else if 0.85 ≤ score ∧ issues.length ≤ 3 then "approve"
  else if 0.75 ≤ score ∧ issues.length ≤ 2 then "approve"
  else if score < 0.4 then "reject"
  else "request_revision"

/-! ## C9: `BaseAgent.invoke_llm` releases on a denied acquisition -/

/-- Outcome oracle for one attempt of `invoke_llm`: the rate limiter
denies acquisition (so the body raises `RuntimeError`), or the LLM call
raises, or the call returns a response. -/
inductive LLMEvent where
  | acquireDenied
  | llmError
  | llmOk (response : String)
  deriving Repr

/-- One rate-limiter interaction: an `acquire` call with its boolean
result, or a `release()` call. -/
inductive RLCall where
  | acqCall (granted : Bool)
  | relCall
  deriving DecidableEq, Repr

/-- The rate-limiter calls performed by one executed attempt of the
`try`/`except` body, in order: a denied `acquire` raises, and the handler
calls `release()` before the backoff; a granted `acquire` is followed by
`release()` on both the success path and the exception path. -/
def attemptCalls : LLMEvent → List RLCall
  | LLMEvent.acquireDenied => [RLCall.acqCall false, RLCall.relCall]
  | LLMEvent.llmError => [RLCall.acqCall true, RLCall.relCall]
  | LLMEvent.llmOk _ => [RLCall.acqCall true, RLCall.relCall]

/-- `BaseAgent.invoke_llm`: one entry of `events` per executed attempt
(`max_retries` bounds the list length); the first successful attempt
returns its response; an exhausted list means the last exception was
re-raised (`none`). The second component is the rate-limiter call
trace. -/
def invoke_llm : List LLMEvent → Option String × List RLCall
  | [] => (none, [])
  | LLMEvent.llmOk r :: _ => (some r, attemptCalls (LLMEvent.llmOk r))
  | e :: es => ((invoke_llm es).1, attemptCalls e ++ (invoke_llm es).2)

/-- Every denied `acquire` in a trace is immediately followed by a
`release`. -/
def deniedThenReleased : List RLCall → Bool
  | [] => true
  | RLCall.acqCall false :: RLCall.relCall :: rest => deniedThenReleased rest
  | RLCall.acqCall false :: _ => false
  | _ :: rest => deniedThenReleased rest

/-! ## Bucket invariant lemmas -/

theorem chainOk_le_chainEnd : ∀ (t0 : ℚ) (ts : List ℚ), chainOk t0 ts → t0 ≤ chainEnd t0 ts := by
  intro t0 ts
  induction ts generalizing t0 with
  | nil => intro _; simp [chainEnd]
  | cons t ts ih =>
    intro h
    exact le_trans h.1 (ih t h.2)

theorem refill_valid (b : TokenBucket) (now : ℚ) (hb : b.Valid)
    (ht : b.last_refill ≤ now) : (b.refill now).Valid ∧ (b.refill now).last_refill = now := by
  obtain ⟨h0, hc, hr⟩ := hb
  refine ⟨⟨?_, ?_, hr⟩, rfl⟩
  · have hcap : (0 : ℚ) ≤ b.capacity := le_trans h0 hc
    have : (0 : ℚ) ≤ b.tokens + (now - b.last_refill) * b.refill_rate := by
      have := mul_nonneg (sub_nonneg.mpr ht) hr
      linarith
    exact le_min hcap this
  · exact min_le_left _ _

theorem consume_valid (b : TokenBucket) (n : ℕ) (now : ℚ) (hb : b.Valid)
    (ht : b.last_refill ≤ now) :
    (b.consume n now).2.Valid ∧ (b.consume n now).2.last_refill = now := by
  obtain ⟨⟨h0, hc, hr⟩, hlast⟩ := refill_valid b now hb ht
  have hn : (0 : ℚ) ≤ (n : ℚ) := Nat.cast_nonneg n
  unfold TokenBucket.consume
  by_cases h : (n : ℚ) ≤ (b.refill now).tokens
  · simp only [h, if_pos]
    refine ⟨⟨?_, ?_, hr⟩, hlast⟩
    · show (0 : ℚ) ≤ (b.refill now).tokens - (n : ℚ)
      linarith
    · show (b.refill now).tokens - (n : ℚ) ≤ (b.refill now).capacity
      linarith
  · simp only [h, if_neg, not_false_iff]
    exact ⟨⟨h0, hc, hr⟩, hlast⟩

theorem waitLoop_valid (n : ℕ) (timeout : Option ℚ) (start : ℚ) :
    ∀ (ts : List ℚ) (b : TokenBucket) (t0 : ℚ), b.Valid → b.last_refill ≤ t0 → chainOk t0 ts →
      (waitLoop n timeout start b ts).2.Valid ∧
        (waitLoop n timeout start b ts).2.last_refill ≤ chainEnd t0 ts := by
  intro ts
  induction ts with
  | nil =>
    intro b t0 hb ht _
    exact ⟨hb, by simpa [waitLoop, chainEnd] using ht⟩
  | cons t ts ih =>
    intro b t0 hb ht hchain
    have htb : b.last_refill ≤ t := le_trans ht hchain.1
    have hcons := consume_valid b n t hb htb
    have hend := chainOk_le_chainEnd t ts hchain.2
    rw [waitLoop]
    by_cases h1 : (b.consume n t).1 = true
    · rw [if_pos h1]
      refine ⟨hcons.1, ?_⟩
      show (b.consume n t).2.last_refill ≤ chainEnd t0 (t :: ts)
      rw [hcons.2]
      exact hend
    · rw [if_neg h1]
      by_cases hto : (timeoutTruthy timeout && decide (t - start > timeout.getD 0)) = true
      · rw [if_pos hto]
        refine ⟨hcons.1, ?_⟩
        show (b.consume n t).2.last_refill ≤ chainEnd t0 (t :: ts)
        rw [hcons.2]
        exact hend
      · rw [if_neg hto]
        have hrefill := refill_valid (b.consume n t).2 t hcons.1 (le_of_eq hcons.2)
        exact ih (((b.consume n t).2).refill t) t hrefill.1 (le_of_eq hrefill.2) hchain.2

theorem wait_for_tokens_valid (b : TokenBucket) (n : ℕ) (timeout : Option ℚ)
    (start : ℚ) (later : List ℚ) (hb : b.Valid) (ht : b.last_refill ≤ start)
    (hchain : chainOk start later) :
    (b.wait_for_tokens n timeout start later).2.Valid ∧
      (b.wait_for_tokens n timeout start later).2.last_refill ≤ chainEnd start later := by
  have := waitLoop_valid n timeout start (start :: later) b b.last_refill hb (le_refl _)
    ⟨ht, hchain⟩
  simpa [TokenBucket.wait_for_tokens, chainEnd] using this

theorem applyBOp_valid (b : TokenBucket) (op : BOp) (t0 : ℚ) (hb : b.Valid)
    (ht : b.last_refill ≤ t0) (hop : bopOk t0 op) :
    (applyBOp b op).Valid ∧ (applyBOp b op).last_refill ≤ bopEnd t0 op := by
  cases op with
  | consumeOp n t =>
    have := consume_valid b n t hb (le_trans ht hop)
    exact ⟨this.1, le_of_eq this.2⟩
  | refillOp t =>
    have := refill_valid b t hb (le_trans ht hop)
    exact ⟨this.1, le_of_eq this.2⟩
  | waitOp n timeout start later =>
    exact wait_for_tokens_valid b n timeout start later hb (le_trans ht hop.1) hop.2

theorem applyBOps_valid :
    ∀ (ops : List BOp) (b : TokenBucket) (t0 : ℚ), b.Valid → b.last_refill ≤ t0 →
      bopsOk t0 ops → (applyBOps b ops).Valid := by
  intro ops
  induction ops with
  | nil => intro b t0 hb _ _; exact hb
  | cons op ops ih =>
    intro b t0 hb ht hops
    have hstep := applyBOp_valid b op t0 hb ht hops.1
    exact ih (applyBOp b op) (bopEnd t0 op) hstep.1 hstep.2 hops.2

/-- C7: for every sequence of `consume` / `wait_for_tokens` / `_refill`
operations on a token bucket (started full, non-negative refill rate,
monotone wall clock), the token count stays within `[0, capacity]`:
lazy refill never raises it above capacity and consumption never drives
it below zero. -/
theorem c7_bucket_tokens_within_bounds (capacity : ℕ) (rate t_init : ℚ) (ops : List BOp)
    (hrate : 0 ≤ rate) (hops : bopsOk t_init ops) :
    0 ≤ (applyBOps (TokenBucket.mkBucket capacity rate t_init) ops).tokens ∧
      (applyBOps (TokenBucket.mkBucket capacity rate t_init) ops).tokens ≤
        (applyBOps (TokenBucket.mkBucket capacity rate t_init) ops).capacity := by
  have hv : (TokenBucket.mkBucket capacity rate t_init).Valid :=
    ⟨Nat.cast_nonneg capacity, le_refl _, hrate⟩
  have := applyBOps_valid ops (TokenBucket.mkBucket capacity rate t_init) t_init hv
    (le_refl _) hops
  exact ⟨this.1, this.2.1⟩

theorem c7_witness :
    0 ≤ (applyBOps (TokenBucket.mkBucket 10 1 0)
          [BOp.consumeOp 3 1, BOp.consumeOp 20 2, BOp.refillOp 5,
           BOp.waitOp 2 (some 1) 6 [7]]).tokens ∧
      (applyBOps (TokenBucket.mkBucket 10 1 0)
          [BOp.consumeOp 3 1, BOp.consumeOp 20 2, BOp.refillOp 5,
           BOp.waitOp 2 (some 1) 6 [7]]).tokens ≤
        (applyBOps (TokenBucket.mkBucket 10 1 0)
          [BOp.consumeOp 3 1, BOp.consumeOp 20 2, BOp.refillOp 5,
           BOp.waitOp 2 (some 1) 6 [7]]).capacity :=
  c7_bucket_tokens_within_bounds 10 1 0 _ (by norm_num)
    (by norm_num [bopsOk, bopOk, bopEnd, chainOk, chainEnd])

/-- C10: `TokenBucket.consume` is all-or-nothing: it succeeds exactly when
the post-refill token count covers the requested amount, and the resulting
bucket is the refilled bucket with either exactly `n` tokens deducted (on
success) or nothing deducted (on failure) — never a partial deduction. -/
theorem c10_consume_all_or_nothing (b : TokenBucket) (n : ℕ) (now : ℚ) :
    ((b.consume n now).1 = true ↔ (n : ℚ) ≤ (b.refill now).tokens) ∧
      (b.consume n now).2 =
        { b.refill now with
          tokens := (b.refill now).tokens - (if (b.consume n now).1 then (n : ℚ) else 0) } := by
  unfold TokenBucket.consume
  by_cases h : (n : ℚ) ≤ (b.refill now).tokens
  · simp [h]
  · simp [h]

/-! ## Slot-wait and acquire structure lemmas -/

theorem slotWait_acquired_iff (active : ℤ) (m : ℕ) (timeout : Option ℚ) (start : ℚ) :
    ∀ ts, (slotWait active m timeout start ts = WaitOutcome.acquired ↔ active < (m : ℤ)) := by
  intro ts
  induction ts with
  | nil =>
    by_cases h : active < (m : ℤ) <;> simp [slotWait, h]
  | cons t ts ih =>
    by_cases h : active < (m : ℤ)
    · simp [slotWait, h]
    · rw [slotWait, if_neg h]
      by_cases hto : (timeoutTruthy timeout && decide (t - start > timeout.getD 0)) = true
      · rw [if_pos hto]
        simp [h]
      · rw [if_neg hto]
        exact ih

theorem slotWait_not_timedOut (active : ℤ) (m : ℕ) (timeout : Option ℚ) (start : ℚ)
    (hto : timeoutTruthy timeout = false) :
    ∀ ts, slotWait active m timeout start ts ≠ WaitOutcome.timedOut := by
  intro ts
  induction ts with
  | nil =>
    by_cases h : active < (m : ℤ) <;> simp [slotWait, h]
  | cons t ts ih =>
    by_cases h : active < (m : ℤ)
    · simp [slotWait, h]
    · rw [slotWait, if_neg h]
      rw [show (timeoutTruthy timeout && decide (t - start > timeout.getD 0)) = false by
        simp [hto]]
      simpa using ih

theorem waitLoop_not_timedOut (n : ℕ) (timeout : Option ℚ) (start : ℚ)
    (hto : timeoutTruthy timeout = false) :
    ∀ (ts : List ℚ) (b : TokenBucket),
      (waitLoop n timeout start b ts).1 ≠ WaitOutcome.timedOut := by
  intro ts
  induction ts with
  | nil => intro b; simp [waitLoop]
  | cons t ts ih =>
    intro b
    rw [waitLoop]
    by_cases h1 : (b.consume n t).1 = true
    · rw [if_pos h1]; simp
    · rw [if_neg h1]
      rw [show (timeoutTruthy timeout && decide (t - start > timeout.getD 0)) = false by
        simp [hto]]
      simpa using ih _

theorem wait_for_tokens_not_timedOut (b : TokenBucket) (n : ℕ) (timeout : Option ℚ)
    (start : ℚ) (later : List ℚ) (hto : timeoutTruthy timeout = false) :
    (b.wait_for_tokens n timeout start later).1 ≠ WaitOutcome.timedOut :=
  waitLoop_not_timedOut n timeout start hto (start :: later) b

theorem acquire_max_concurrent (rl : RateLimiter) (est : ℕ) (timeout : Option ℚ)
    (start : ℚ) (sT rT tT : List ℚ) :
    (rl.acquire est timeout start sT rT tT).2.max_concurrent = rl.max_concurrent := by
  unfold RateLimiter.acquire
  split
  · rfl
  · rfl
  · dsimp only
    split
    · rfl
    · split
      · rfl
      · split
        · rfl
        · rfl

theorem acquire_active_cases (rl : RateLimiter) (est : ℕ) (timeout : Option ℚ)
    (start : ℚ) (sT rT tT : List ℚ) :
    (rl.acquire est timeout start sT rT tT).2.active_requests = rl.active_requests ∨
      ((rl.acquire est timeout start sT rT tT).2.active_requests = rl.active_requests + 1 ∧
        rl.active_requests < (rl.max_concurrent : ℤ)) := by
  unfold RateLimiter.acquire
  split
  · exact Or.inl rfl
  · exact Or.inl rfl
  · next hs =>
    have hlt : rl.active_requests < (rl.max_concurrent : ℤ) :=
      (slotWait_acquired_iff _ _ _ _ _).mp hs
    dsimp only
    split
    · exact Or.inr ⟨rfl, hlt⟩
    · split
      · exact Or.inr ⟨rfl, hlt⟩
      · split
        · exact Or.inr ⟨rfl, hlt⟩
        · exact Or.inl (by simp)

theorem acquireTrace_bounds (rl : RateLimiter) (timeout : Option ℚ) (start : ℚ)
    (sT : List ℚ) (h0 : 0 ≤ rl.active_requests) :
    ∀ v ∈ rl.acquireTrace timeout start sT,
      0 ≤ v ∧ v ≤ (rl.max_concurrent : ℤ) := by
  unfold RateLimiter.acquireTrace
  split
  · next hs =>
    have hlt : rl.active_requests < (rl.max_concurrent : ℤ) :=
      (slotWait_acquired_iff _ _ _ _ _).mp hs
    intro v hv
    simp only [List.mem_singleton] at hv
    subst hv
    constructor
    · linarith
    · linarith
  · intro v hv
    simp at hv

theorem applyRLOp_max (rl : RateLimiter) (op : RLOp) :
    (applyRLOp rl op).max_concurrent = rl.max_concurrent := by
  cases op with
  | acquireOp est timeout start sT rT tT => exact acquire_max_concurrent rl est timeout start sT rT tT
  | releaseOp => rfl

theorem withinBounds_iff (m : ℕ) (vs : List ℤ) :
    withinBounds m vs = true ↔ ∀ v ∈ vs, 0 ≤ v ∧ v ≤ (m : ℤ) := by
  simp [withinBounds, List.all_eq_true, Bool.and_eq_true, decide_eq_true_eq]

theorem applyRLOp_active_bounds (rl : RateLimiter) (op : RLOp)
    (h0 : 0 ≤ rl.active_requests) (h1 : rl.active_requests ≤ (rl.max_concurrent : ℤ)) :
    0 ≤ (applyRLOp rl op).active_requests ∧
      (applyRLOp rl op).active_requests ≤ (rl.max_concurrent : ℤ) := by
  cases op with
  | acquireOp est timeout start sT rT tT =>
    rcases acquire_active_cases rl est timeout start sT rT tT with h | ⟨h, hlt⟩
    · rw [applyRLOp, h]; exact ⟨h0, h1⟩
    · rw [applyRLOp, h]; constructor <;> linarith
  | releaseOp =>
    refine ⟨le_max_left _ _, max_le (Int.ofNat_nonneg _) ?_⟩
    show rl.active_requests - 1 ≤ (rl.max_concurrent : ℤ)
    linarith

/-- C8: for every sequence of `acquire` and `release` calls, the
`active_requests` counter — including its transient value while an
`acquire` holds a freshly claimed slot — never exceeds `max_concurrent`,
and (release is clamped at zero, even when called more often than
`acquire` succeeded) never goes below zero. -/
theorem c8_concurrency_counter_bounds :
    ∀ (ops : List RLOp) (rl : RateLimiter),
      0 ≤ rl.active_requests → rl.active_requests ≤ (rl.max_concurrent : ℤ) →
      0 ≤ (runRLOps rl ops).1.active_requests ∧
        (runRLOps rl ops).1.active_requests ≤ ((rl.max_concurrent : ℕ) : ℤ) ∧
        withinBounds rl.max_concurrent (runRLOps rl ops).2 = true := by
  intro ops
  induction ops with
  | nil =>
    intro rl h0 h1
    exact ⟨h0, h1, by simp [runRLOps, withinBounds]⟩
  | cons op ops ih =>
    intro rl h0 h1
    have hstep := applyRLOp_active_bounds rl op h0 h1
    have hmax := applyRLOp_max rl op
    have hrec := ih (applyRLOp rl op) hstep.1 (by rw [hmax]; exact hstep.2)
    rw [hmax] at hrec
    refine ⟨hrec.1, hrec.2.1, ?_⟩
    rw [withinBounds_iff]
    intro v hv
    rw [runRLOps] at hv
    simp only [List.mem_append, List.mem_cons] at hv
    rcases hv with hv | hv | hv
    · cases op with
      | acquireOp est timeout start sT rT tT =>
        exact acquireTrace_bounds rl timeout start sT h0 v hv
      | releaseOp => simp [rlOpTrace] at hv
    · subst hv; exact hstep
    · exact (withinBounds_iff _ _).mp hrec.2.2 v hv

theorem c8_witness :
    0 ≤ (runRLOps (RateLimiter.mkLimiter ⟨60, 60000, 2⟩ 0)
          [RLOp.acquireOp 10 (some 30) 0 [] [] [], RLOp.releaseOp, RLOp.releaseOp,
           RLOp.acquireOp 10 (some 30) 0 [] [] []]).1.active_requests ∧
      (runRLOps (RateLimiter.mkLimiter ⟨60, 60000, 2⟩ 0)
          [RLOp.acquireOp 10 (some 30) 0 [] [] [], RLOp.releaseOp, RLOp.releaseOp,
           RLOp.acquireOp 10 (some 30) 0 [] [] []]).1.active_requests ≤ (((2 : ℕ) : ℕ) : ℤ) ∧
      withinBounds 2 (runRLOps (RateLimiter.mkLimiter ⟨60, 60000, 2⟩ 0)
          [RLOp.acquireOp 10 (some 30) 0 [] [] [], RLOp.releaseOp, RLOp.releaseOp,
           RLOp.acquireOp 10 (some 30) 0 [] [] []]).2 = true :=
  c8_concurrency_counter_bounds _ (RateLimiter.mkLimiter ⟨60, 60000, 2⟩ 0)
    (by decide) (by decide)

/-! ## C3: behaviour of `acquire` on success and on partial failure -/

/-- C3 (amended): once a concurrency slot is claimed, if both bucket waits
deliver a definite outcome and at least one is not a success, `acquire`
releases the claimed slot (net counter unchanged) and returns failure; on
success the slot stays claimed and both buckets are debited. Tokens
consumed from a bucket whose wait succeeded are NOT refunded on partial
failure: the final buckets are exactly the post-wait buckets. -/
theorem c3_acquire_slot_rollback_no_token_refund (rl : RateLimiter) (est : ℕ)
    (timeout : Option ℚ) (start : ℚ) (sT rT tT : List ℚ)
    (hslot : slotWait rl.active_requests rl.max_concurrent timeout start sT =
      WaitOutcome.acquired) :
    (((rl.request_bucket.wait_for_tokens 1 timeout start rT).1 = WaitOutcome.acquired ∧
      (rl.token_bucket.wait_for_tokens est timeout start tT).1 = WaitOutcome.acquired) →
      rl.acquire est timeout start sT rT tT =
        (some true,
          { rl with active_requests := rl.active_requests + 1,
                    request_bucket := (rl.request_bucket.wait_for_tokens 1 timeout start rT).2,
                    token_bucket := (rl.token_bucket.wait_for_tokens est timeout start tT).2 }))
    ∧ ((rl.request_bucket.wait_for_tokens 1 timeout start rT).1 ≠ WaitOutcome.pending →
      (rl.token_bucket.wait_for_tokens est timeout start tT).1 ≠ WaitOutcome.pending →
      ¬((rl.request_bucket.wait_for_tokens 1 timeout start rT).1 = WaitOutcome.acquired ∧
        (rl.token_bucket.wait_for_tokens est timeout start tT).1 = WaitOutcome.acquired) →
      rl.acquire est timeout start sT rT tT =
        (some false,
          { rl with request_bucket := (rl.request_bucket.wait_for_tokens 1 timeout start rT).2,
                    token_bucket := (rl.token_bucket.wait_for_tokens est timeout start tT).2 })) := by
  constructor
  · intro ⟨ha1, ha2⟩
    unfold RateLimiter.acquire
    rw [hslot]
    dsimp only
    rw [ha1, ha2]
    simp
  · intro h1 h2 h3
    unfold RateLimiter.acquire
    rw [hslot]
    dsimp only
    rw [if_neg h1, if_neg h2, if_neg h3]
    simp [Prod.ext_iff]

theorem rlC3_reachable :
    ((RateLimiter.mkLimiter ⟨60, 60, 5⟩ 0).acquire 60 (some 30) 0 [] [] []).2.release = rlC3 := by
  norm_num +decide [RateLimiter.mkLimiter, TokenBucket.mkBucket, RateLimiter.acquire,
    RateLimiter.release, slotWait, TokenBucket.wait_for_tokens, waitLoop,
    TokenBucket.consume, TokenBucket.refill, timeoutTruthy, rlC3]

/-- C3 (counterexample to the claim as stated): from `rlC3` (request
bucket at 59, cost bucket at 0), an `acquire(60, timeout=1)` claims the
slot, takes a token from the request bucket, then times out on the cost
bucket. The call fails and the slot is released, but the request-bucket
token is not rolled back: its count drops from 59 to 58, so bucket tokens
DO remain consumed on partial failure. -/
theorem c3_counterexample :
    rlC3.request_bucket.tokens = 59 ∧
    (rlC3.acquire 60 (some 1) 0 [] [] [2]).1 = some false ∧
    (rlC3.acquire 60 (some 1) 0 [] [] [2]).2.active_requests = rlC3.active_requests ∧
    (rlC3.acquire 60 (some 1) 0 [] [] [2]).2.request_bucket.tokens = 58 ∧
    ¬((58 : ℚ) = 59) := by
  norm_num +decide [rlC3, RateLimiter.acquire, slotWait, TokenBucket.wait_for_tokens, waitLoop,
    TokenBucket.consume, TokenBucket.refill, timeoutTruthy]

theorem c3_witness :
    rlC3.acquire 60 (some 1) 0 [] [] [2] =
      (some false,
        { rlC3 with
            request_bucket := (rlC3.request_bucket.wait_for_tokens 1 (some 1) 0 []).2,
            token_bucket := (rlC3.token_bucket.wait_for_tokens 60 (some 1) 0 [2]).2 }) :=
  (c3_acquire_slot_rollback_no_token_refund rlC3 60 (some 1) 0 [] [] [2]
    (by norm_num +decide [rlC3, slotWait])).2
    (by norm_num +decide [rlC3, TokenBucket.wait_for_tokens, waitLoop, TokenBucket.consume,
      TokenBucket.refill, timeoutTruthy])
    (by norm_num +decide [rlC3, TokenBucket.wait_for_tokens, waitLoop, TokenBucket.consume,
      TokenBucket.refill, timeoutTruthy])
    (by norm_num +decide [rlC3, TokenBucket.wait_for_tokens, waitLoop, TokenBucket.consume,
      TokenBucket.refill, timeoutTruthy])

/-! ## C4: `acquire(timeout=0)` — the Python truthiness slip -/

theorem acquire_timeout_falsy_no_failure (rl : RateLimiter) (est : ℕ) (timeout : Option ℚ)
    (start : ℚ) (sT rT tT : List ℚ) (hto : timeoutTruthy timeout = false) :
    (rl.acquire est timeout start sT rT tT).1 ≠ some false := by
  unfold RateLimiter.acquire
  split
  · simp
  · next hs => exact absurd hs (slotWait_not_timedOut _ _ _ _ hto _)
  · dsimp only
    split
    · simp
    · next h1 =>
      split
      · simp
      · next h2 =>
        split
        · simp
        · next h3 =>
          exfalso
          have nt1 := wait_for_tokens_not_timedOut rl.request_bucket 1 timeout start rT hto
          have nt2 := wait_for_tokens_not_timedOut rl.token_bucket est timeout start tT hto
          cases hc1 : (rl.request_bucket.wait_for_tokens 1 timeout start rT).1 <;>
            cases hc2 : (rl.token_bucket.wait_for_tokens est timeout start tT).1 <;>
            simp_all

set_option maxRecDepth 40000 in
set_option maxHeartbeats 4000000 in
theorem after60_eq :
    after60 = (true, { request_bucket := ⟨60, 1, 0, 0⟩,
                       token_bucket := ⟨150000, 2500, 90000, 0⟩,
                       active_requests := 0, max_concurrent := 5 }) := by
  norm_num +decide [after60, drainCalls, cfg60, RateLimiter.mkLimiter, TokenBucket.mkBucket,
    RateLimiter.acquire, RateLimiter.release, slotWait, TokenBucket.wait_for_tokens,
    waitLoop, TokenBucket.consume, TokenBucket.refill, timeoutTruthy]

/-- C4 (code bug): with `requests_per_minute=60`, 60 back-to-back
`acquire(timeout=0)` calls succeed, but the 61st does NOT fail
immediately: because `if timeout and ...` treats `timeout=0` as falsy,
neither the bucket waits nor the slot wait can ever time out, so the call
blocks (no boolean is returned for any polling schedule) instead of
returning failure. -/
theorem c4_timeout_zero_blocks :
    (∀ (b : TokenBucket) (n : ℕ) (start : ℚ) (later : List ℚ),
        (b.wait_for_tokens n (some 0) start later).1 ≠ WaitOutcome.timedOut) ∧
    (∀ (rl : RateLimiter) (est : ℕ) (start : ℚ) (sT rT tT : List ℚ),
        (rl.acquire est (some 0) start sT rT tT).1 ≠ some false) ∧
    after60.1 = true ∧
    (after60.2.acquire 1000 (some 0) 0 [] [] []).1 = none := by
  refine ⟨?_, ?_, ?_, ?_⟩
  · intro b n start later
    exact wait_for_tokens_not_timedOut b n (some 0) start later rfl
  · intro rl est start sT rT tT
    exact acquire_timeout_falsy_no_failure rl est (some 0) start sT rT tT rfl
  · rw [after60_eq]
  · rw [after60_eq]
    norm_num +decide [RateLimiter.acquire, slotWait, TokenBucket.wait_for_tokens, waitLoop,
      TokenBucket.consume, TokenBucket.refill, timeoutTruthy]

/-! ## C1: termination check and liveness -/

theorem route_finish_of_next (s : AgentState) (h : s.next_agent = "finish") :
    route_from_supervisor s = "finish" := by
  simp +decide [route_from_supervisor, h]

theorem supervisor_forces_finish (maxIter : ℕ) (router : AgentState → SupervisorDecision)
    (s : AgentState) (h : should_finish maxIter s = true) :
    (applyUpdate s (supervisor_node maxIter router s)).next_agent = "finish" := by
  unfold supervisor_node
  by_cases hge : maxIter ≤ s.iteration_count
  · rw [if_pos hge]; rfl
  · rw [if_neg hge]
    unfold supervisor_execute
    rw [if_pos h]
    by_cases hd : s.content_draft ≠ "" ∧ s.final_output = ""
    · rw [if_pos hd]; rfl
    · rw [if_neg hd]; rfl

theorem supervisor_forced_status (maxIter : ℕ) (router : AgentState → SupervisorDecision)
    (s : AgentState) (h : should_finish maxIter s = true) :
    (applyUpdate s (supervisor_node maxIter router s)).workflow_status = "completed" := by
  unfold supervisor_node
  by_cases hge : maxIter ≤ s.iteration_count
  · rw [if_pos hge]; rfl
  · rw [if_neg hge]
    unfold supervisor_execute
    rw [if_pos h]
    by_cases hd : s.content_draft ≠ "" ∧ s.final_output = ""
    · rw [if_pos hd]; rfl
    · rw [if_neg hd]; rfl

theorem runLoop_halts (maxIter : ℕ) (router : AgentState → SupervisorDecision)
    (workers : String → AgentState → StateUpdate)
    (hw : ∀ r s, (workers r s).iteration_count = none) :
    ∀ (fuel : ℕ) (s : AgentState), maxIter ≤ s.iteration_count + fuel →
      (runLoop maxIter router workers (fuel + 1) s).isSome = true := by
  intro fuel
  induction fuel with
  | zero =>
    intro s hle
    have hge : maxIter ≤ s.iteration_count := by omega
    have hnext : (applyUpdate s (supervisor_node maxIter router s)).next_agent = "finish" := by
      unfold supervisor_node
      rw [if_pos hge]
      rfl
    rw [runLoop, if_pos (route_finish_of_next _ hnext)]
    rfl
  | succ fuel ih =>
    intro s hle
    by_cases hge : maxIter ≤ s.iteration_count
    · have hnext : (applyUpdate s (supervisor_node maxIter router s)).next_agent = "finish" := by
        unfold supervisor_node
        rw [if_pos hge]
        rfl
      rw [runLoop, if_pos (route_finish_of_next _ hnext)]
      rfl
    · rw [runLoop]
      by_cases hr :
          route_from_supervisor (applyUpdate s (supervisor_node maxIter router s)) = "finish"
      · rw [if_pos hr]; rfl
      · rw [if_neg hr]
        apply ih
        have h1 : (applyUpdate s (supervisor_node maxIter router s)).iteration_count =
            s.iteration_count + 1 := by
          unfold supervisor_node
          rw [if_neg hge]
          rfl
        have h2 : ∀ s1 : AgentState,
            (applyUpdate s1 (workers (route_from_supervisor s1) s1)).iteration_count =
              s1.iteration_count := by
          intro s1
          show ((workers (route_from_supervisor s1) s1).iteration_count).getD
            s1.iteration_count = s1.iteration_count
          rw [hw]
          rfl
        rw [h2, h1]
        omega

/-- C1: before invoking the Router, the Control Loop evaluates the
termination check (`iteration_count >= max_iterations`, or
`revision_count >= max_revisions` (= 3), or `review_decision == approve`
with a final output already present); when it holds, `next_agent` is
forced to `finish` no matter what the router would decide. Consequently,
for any router behaviour and any stage workers that do not write
`iteration_count` (none of the real workers do), the loop from the
initial state reaches a terminal state within `max_iterations` steps
(fuel `max_iterations + 1` supervisor passes always suffices, hence at
most `max_iterations` worker steps run). -/
theorem c1_termination_check_and_liveness :
    (∀ (maxIter : ℕ) (router : AgentState → SupervisorDecision) (s : AgentState),
        should_finish maxIter s = true →
        (applyUpdate s (supervisor_node maxIter router s)).next_agent = "finish") ∧
    (∀ (maxIter : ℕ) (task : String) (router : AgentState → SupervisorDecision)
        (workers : String → AgentState → StateUpdate),
        (∀ r s, (workers r s).iteration_count = none) →
        (runLoop maxIter router workers (maxIter + 1) (create_initial_state task)).isSome =
          true) := by
  constructor
  · intro maxIter router s h
    exact supervisor_forces_finish maxIter router s h
  · intro maxIter task router workers hw
    exact runLoop_halts maxIter router workers hw maxIter (create_initial_state task)
      (by simp [create_initial_state])

theorem c1_witness :
    (applyUpdate { create_initial_state "w" with iteration_count := 5 }
        (supervisor_node 5 routerR
          { create_initial_state "w" with iteration_count := 5 })).next_agent = "finish" ∧
    (runLoop 3 routerR workersNone 4 (create_initial_state "w")).isSome = true :=
  ⟨c1_termination_check_and_liveness.1 5 routerR _ (by decide),
   c1_termination_check_and_liveness.2 3 "w" routerR workersNone (fun _ _ => rfl)⟩

/-- C2 (counterexample to the claim as stated): in Scenario A the loop
halts at iteration 5 with `workflow_status = "completed"` (not `failed` —
the graph-level guard always writes `completed`), an empty `final_output`
(that branch does not derive one from the draft), and 10 accumulated
messages (one supervisor task message plus one drafter result message per
cycle), not 5. -/
theorem c2_counterexample :
    (scenarioAFinal.map fun s =>
        (s.workflow_status, s.final_output, s.messages.length, s.iteration_count)) =
      some ("completed", "", 10, 5) ∧
    ¬(("completed" : String) = "failed") ∧ ¬((10 : ℕ) = 5) := by
  refine ⟨by decide, by decide, by decide⟩

/-- C2 (amended): whenever the supervisor termination check fires, the
terminal status written is `completed`, whether or not a `final_output`
exists or can be derived; in Scenario A (`max_iterations = 5`, router
always drafter with confidence 1.0) the loop halts at iteration 5 with
`status = "completed"`, empty `final_output`, and 10 accumulated
messages. -/
theorem c2_amended_forced_finish_completed :
    (∀ (maxIter : ℕ) (router : AgentState → SupervisorDecision) (s : AgentState),
        should_finish maxIter s = true →
        (applyUpdate s (supervisor_node maxIter router s)).workflow_status = "completed") ∧
    (scenarioAFinal.map fun s =>
        (s.workflow_status, s.final_output, s.messages.length, s.iteration_count)) =
      some ("completed", "", 10, 5) := by
  constructor
  · intro maxIter router s h
    exact supervisor_forced_status maxIter router s h
  · decide

theorem c2_witness :
    (applyUpdate { create_initial_state "w" with iteration_count := 7 }
        (supervisor_node 5 routerA
          { create_initial_state "w" with iteration_count := 7 })).workflow_status =
      "completed" :=
  c2_amended_forced_finish_completed.1 5 routerA _ (by decide)

/-- C6 (counterexample to the claim as stated): on a state with no
research and `iteration_count = max_iterations = 15`, the fallback
returns `finish` while the claimed populated-fields table says
`researcher` — the fallback is keyed on the caps as well, not only on
which output fields are populated. -/
theorem c6_counterexample :
    (fallback_decision 15
        { create_initial_state "topic" with iteration_count := 15 }).next_agent = "finish" ∧
    fallbackTableClaimed { create_initial_state "topic" with iteration_count := 15 } =
      "researcher" ∧
    ¬(("finish" : String) = "researcher") := by
  refine ⟨by decide, by decide, by decide⟩

/-- C6 (amended): the fallback is a pure function of the state — its
`Decision` depends only on `iteration_count`, `revision_count`, the three
populated-output flags, `review_decision`, `task` and `review_feedback` —
and its routing implements the claimed rule table prefixed by the two cap
guards (`iteration_count >= max_iterations` or
`revision_count >= max_revisions` force `finish`). -/
theorem c6_fallback_pure_guarded_table (maxIter : ℕ) (s s2 : AgentState)
    (hIter : s.iteration_count = s2.iteration_count)
    (hRev : s.revision_count = s2.revision_count)
    (hRes : s.research_findings = s2.research_findings)
    (hDraft : s.content_draft = s2.content_draft)
    (hFb : s.review_feedback = s2.review_feedback)
    (hDec : s.review_decision = s2.review_decision)
    (hTask : s.task = s2.task) :
    (fallback_decision maxIter s).next_agent = fallbackTableGuarded maxIter s ∧
      fallback_decision maxIter s = fallback_decision maxIter s2 := by
  constructor
  · unfold fallback_decision fallbackTableGuarded fallbackTableClaimed
    split_ifs <;> rfl
  · unfold fallback_decision
    rw [hIter, hRev, hRes, hDraft, hFb, hDec, hTask]

theorem c6_witness :
    (fallback_decision 15 (create_initial_state "t")).next_agent =
      fallbackTableGuarded 15 (create_initial_state "t") ∧
      fallback_decision 15 (create_initial_state "t") =
        fallback_decision 15 (create_initial_state "t") :=
  c6_fallback_pure_guarded_table 15 _ _ rfl rfl rfl rfl rfl rfl rfl

/-- C5 (counterexample to the claim as stated): at score 9/10 with the
single issue "contains plagiarism", the first listed rule of the claim
(score ≥ 0.85, at most 3 issues ⇒ approve) demands `approve`, but the
code rejects: the critical-keyword check runs first. -/
theorem c5_counterexample :
    make_decision (9/10) ["contains plagiarism"] = "reject" ∧
    make_decision_claimed (9/10) ["contains plagiarism"] = "approve" ∧
    ¬(("reject" : String) = "approve") := by
  refine ⟨?_, ?_, by decide⟩
  · have hc : has_critical ["contains plagiarism"] = true := by decide
    unfold make_decision
    rw [if_pos hc]
  · unfold make_decision_claimed
    rw [if_pos ⟨by norm_num, by decide⟩]

/-- C5 (amended): the decision function is the claimed fixed-threshold
table with the critical-keyword rejection given precedence: it equals the
amended table everywhere, agrees with the claimed ordering whenever no
critical keyword is present, and returns `reject` whenever one is. -/
theorem c5_make_decision_critical_first (score : ℚ) (issues : List String) :
    make_decision score issues = make_decision_amended score issues ∧
    (has_critical issues = false →
      make_decision score issues = make_decision_claimed score issues) ∧
    (has_critical issues = true → make_decision score issues = "reject") := by
  refine ⟨rfl, ?_, ?_⟩
  · intro h
    unfold make_decision make_decision_claimed
    rw [h]
    simp
  · intro h
    unfold make_decision
    rw [if_pos h]

theorem c5_witness :
    make_decision (1/2) [] = make_decision_claimed (1/2) [] ∧
      make_decision (9/10) ["has plagiarism"] = "reject" :=
  ⟨(c5_make_decision_critical_first (1/2) []).2.1 (by decide),
   (c5_make_decision_critical_first (9/10) ["has plagiarism"]).2.2 (by decide)⟩

/-- C9: on every attempt in which `rate_limiter.acquire` returns `False`,
the exception handler still invokes `rate_limiter.release()` before the
backoff and retry, and `release` decrements the shared concurrency
counter whenever it is positive (clamping at zero) even though the denied
attempt claimed no slot. -/
theorem c9_denied_acquire_still_releases :
    (∀ events : List LLMEvent, deniedThenReleased (invoke_llm events).2 = true) ∧
    (∀ rl : RateLimiter, 1 ≤ rl.active_requests →
      rl.release.active_requests = rl.active_requests - 1) := by
  constructor
  · intro events
    induction events with
    | nil => rfl
    | cons e es ih =>
      cases e with
      | llmOk r => rfl
      | acquireDenied => simpa [invoke_llm, attemptCalls, deniedThenReleased] using ih
      | llmError => simpa [invoke_llm, attemptCalls, deniedThenReleased] using ih
  · intro rl h
    show max 0 (rl.active_requests - 1) = rl.active_requests - 1
    exact max_eq_right (by omega)

theorem c9_witness :
    deniedThenReleased
      (invoke_llm [LLMEvent.acquireDenied, LLMEvent.llmError, LLMEvent.llmOk "done"]).2 =
        true ∧
    ({ rlC3 with active_requests := 1 } : RateLimiter).release.active_requests = 1 - 1 :=
  ⟨c9_denied_acquire_still_releases.1 _,
   c9_denied_acquire_still_releases.2 { rlC3 with active_requests := 1 } (by decide)⟩

end Pipeline

